import Mathlib

/-!
Verification of the smart-door-camera repository detection-alert pipeline.

The embedding mirrors the Python sources:
  - `smart_door_camera/notification.py` (TelegramNotifier, rate limiting,
    photo sending with text fallback, synchronous wrappers),
  - `face_recognition.py` (FaceRecognizer.recognize_face),
  - `main.py` (SmartDoorCamera._process_frame, run, main),
  - `smart_door_camera/utils.py` (save_detection_csv, cleanup_old_images),
  - `config.py` (the configuration constants the above read).

Timestamps (seconds since the epoch, as produced by datetime.now().timestamp)
are modelled as rationals. Transport calls that can raise TelegramError are
modelled as `Except Unit`-valued oracles recorded in an `Env`; the try/except
structure of the Python code is made explicit through `match` on these results.
-/

namespace SmartDoor

/-! ## Configuration constants (config.py) -/

/-- config.py line 41: minimum seconds between alerts for the same person. -/
def MIN_DETECTION_INTERVAL : ℚ := 2

/-- config.py line 42: send a detection photo with each alert. -/
def SEND_IMAGE_WITH_ALERT : Bool := true

/-- config.py line 15: the admin chat id. -/
def TELEGRAM_USER_ID : String := "1042611352"

/-- config.py line 16: the optional broadcast channel id. -/
def TELEGRAM_CHANNEL_ID : String := "@rpi5doorcam"

/-- config.py line 70: automatic deletion of old detection images. -/
def CLEANUP_OLD_IMAGES : Bool := true

/-- config.py line 26: face match tolerance passed to recognize_face. -/
def FACE_RECOGNITION_THRESHOLD : ℚ := 3/5

/-! ## Rate-limit table (TelegramNotifier.last_alert_time)

The Python dict is modelled as an insertion-ordered association list; lookup
with default 0 mirrors `self.last_alert_time.get(person_name, 0)`, and
assignment mirrors in-place overwrite of an existing key. -/

/-- Model of `dict.get(key, 0)` on the last-alert-time table. -/
def dictGet : List (String × ℚ) → String → ℚ
  | [], _ => 0
  | p :: rest, k => if p.1 == k then p.2 else dictGet rest k

/-- Model of `dict[key] = v`: overwrite in place, else append. -/
def dictSet : List (String × ℚ) → String → ℚ → List (String × ℚ)
  | [], k, v => [(k, v)]
  | p :: rest, k, v => if p.1 == k then (k, v) :: rest else p :: dictSet rest k v

/-- notification.py lines 136-140, `TelegramNotifier._check_rate_limit`:
returns true when `now - last_alert_time.get(name, 0) >= MIN_DETECTION_INTERVAL`. -/
def check_rate_limit (table : List (String × ℚ)) (now : ℚ) (person_name : String) : Bool :=
  decide (MIN_DETECTION_INTERVAL ≤ now - dictGet table person_name)

/-- notification.py lines 142-144, `TelegramNotifier._update_rate_limit`:
`last_alert_time[person_name] = now`. -/
def update_rate_limit (table : List (String × ℚ)) (now : ℚ) (person_name : String) :
    List (String × ℚ) :=
  dictSet table person_name now

/-! ## Transport oracle and message events -/

/-- Outcomes of the external Telegram transport for one dispatch: whether the
photo file exists on disk, whether `bot.send_photo` succeeds, and whether
`bot.send_message` succeeds. -/
structure Env where
  photoExists : Bool
  sendPhotoOk : Bool
  sendTextOk : Bool
deriving DecidableEq, Repr

/-- A message actually delivered to the transport, tagged with its chat id. -/
inductive Msg
  | photo (chat : String)
  | text (chat : String)
deriving DecidableEq, Repr

/-- Model of `bot.send_photo`: may raise TelegramError (`Except.error`). -/
def trySendPhoto (env : Env) (chat : String) : Except Unit (List Msg) :=
  if env.sendPhotoOk then Except.ok [Msg.photo chat] else Except.error ()

/-- Model of `bot.send_message`: may raise TelegramError (`Except.error`). -/
def trySendText (env : Env) (chat : String) : Except Unit (List Msg) :=
  if env.sendTextOk then Except.ok [Msg.text chat] else Except.error ()

/-- notification.py lines 105-134, `TelegramNotifier._send_photo_with_caption`.
If the photo file does not exist it logs a warning and returns with nothing
sent; otherwise it tries `send_photo`; on an exception it falls back to a
text-only `send_message`, and a failure of that fallback is swallowed too.
The value is the list of messages that reached the transport; `Except.error`
would mean an exception escaping to the caller. -/
def send_photo_with_caption (env : Env) (chat : String) : Except Unit (List Msg) :=
  if !env.photoExists then Except.ok []
  else
    match trySendPhoto env chat with
    | Except.ok ms => Except.ok ms
    | Except.error _ =>
      match trySendText env chat with
      | Except.ok ms => Except.ok ms
      | Except.error _ => Except.ok []

/-- Python truthiness of the optional `image_path` argument: `None` and the
empty string (returned by `_save_detection_image` on write failure) are falsy. -/
def pathTruthy : Option String → Bool
  | none => false
  | some s => !(s == "")

/-- notification.py line 88: the channel branch runs only when the channel id
is truthy and differs from the sentinel `"@rpi5doorcam"`; with the repository
configuration it is disabled. -/
def channelEnabled : Bool :=
  (!(TELEGRAM_CHANNEL_ID == "")) && (!(TELEGRAM_CHANNEL_ID == "@rpi5doorcam"))

/-- Result of one `send_detection_alert` call: the rate-limit table of the
notifier after the call, whether the alert was suppressed by the rate-limit
check, and the messages that reached the transport. -/
structure AlertResult where
  table : List (String × ℚ)
  suppressed : Bool
  msgs : List Msg
deriving DecidableEq, Repr

/-- notification.py lines 37-103, `TelegramNotifier.send_detection_alert`.
The rate-limit check precedes everything; on suppression the method returns at
once. Otherwise, inside the try block: with a truthy image path and
SEND_IMAGE_WITH_ALERT the photo helper is used (it never raises) for the user
and, if enabled, the channel, and then `_update_rate_limit` runs; in the
text-only branch a raising `send_message` is caught by the outer handler,
which skips the `_update_rate_limit` call. The method itself never raises. -/
def send_detection_alert (table : List (String × ℚ)) (now : ℚ)
    (person_type : String) (image_path : Option String) (person_name : String)
    (env : Env) : AlertResult :=
  if !(check_rate_limit table now person_name) then
    { table := table, suppressed := true, msgs := [] }
  else
    if pathTruthy image_path && SEND_IMAGE_WITH_ALERT then
      match send_photo_with_caption env TELEGRAM_USER_ID with
      | Except.error _ => { table := table, suppressed := false, msgs := [] }
      | Except.ok m1 =>
        match (if channelEnabled then send_photo_with_caption env TELEGRAM_CHANNEL_ID
               else Except.ok []) with
        | Except.error _ => { table := table, suppressed := false, msgs := m1 }
        | Except.ok m2 =>
          { table := update_rate_limit table now person_name, suppressed := false,
            msgs := m1 ++ m2 }
    else
      match trySendText env TELEGRAM_USER_ID with
      | Except.ok ms =>
        { table := update_rate_limit table now person_name, suppressed := false,
          msgs := ms }
      | Except.error _ => { table := table, suppressed := false, msgs := [] }

/-- notification.py lines 195-206, `send_detection_sync`: constructs a fresh
`TelegramNotifier()` (whose `last_alert_time` starts empty) and runs
`send_detection_alert` on it. -/
def send_detection_sync (now : ℚ) (person_type : String)
    (image_path : Option String) (person_name : String) (env : Env) : AlertResult :=
  send_detection_alert [] now person_type image_path person_name env

/-- A transport environment in which every operation succeeds. -/
def envAllOk : Env := { photoExists := true, sendPhotoOk := true, sendTextOk := true }

/-- A transport environment in which `send_message` raises TelegramError. -/
def envTextFail : Env := { photoExists := true, sendPhotoOk := true, sendTextOk := false }

/-- A transport environment in which the photo file is missing from disk. -/
def envNoFile : Env := { photoExists := false, sendPhotoOk := true, sendTextOk := true }

/-- Helper: the photo helper never lets an exception escape to its caller. -/
theorem send_photo_with_caption_ok (env : Env) (chat : String) :
    ∃ ms, send_photo_with_caption env chat = Except.ok ms := by
  rcases env with ⟨pe, po, tx⟩
  cases pe <;> cases po <;> cases tx <;>
    exact ⟨_, rfl⟩

/-- Helper: with the repository configuration the broadcast-channel branch is
disabled, since the configured channel id equals the sentinel. -/
theorem channelEnabled_eq_false : channelEnabled = false := rfl

/-- C6: a dispatch attempt suppressed by the rate-limit check leaves the
rate-limit table exactly as it was (no entry created, modified or removed),
and sends nothing. -/
theorem C6_suppressed_preserves_table (table : List (String × ℚ)) (now : ℚ)
    (person_type : String) (image_path : Option String) (person_name : String)
    (env : Env) (h : check_rate_limit table now person_name = false) :
    (send_detection_alert table now person_type image_path person_name env).table = table ∧
    (send_detection_alert table now person_type image_path person_name env).suppressed = true ∧
    (send_detection_alert table now person_type image_path person_name env).msgs = [] := by
  unfold send_detection_alert
  rw [h]
  simp

/-- Witness for C6 at a concrete suppressed dispatch: last alert for alice at
99 and a new attempt at 100 falls inside the 2-second window. -/
theorem C6_suppressed_preserves_table_witness :
    check_rate_limit [("alice", 99)] 100 "alice" = false ∧
    (send_detection_alert [("alice", 99)] 100 "INTRUDER" none "alice" envAllOk).table
      = [("alice", 99)] := by
  have h : check_rate_limit [("alice", 99)] 100 "alice" = false := by
    norm_num [check_rate_limit, dictGet, MIN_DETECTION_INTERVAL]
  exact ⟨h, (C6_suppressed_preserves_table [("alice", 99)] 100 "INTRUDER" none "alice"
    envAllOk h).1⟩

/-- C1: evaluation of the code at the failing input. Two `send_detection_sync`
calls for the same person at times 100 and 101 (1 second apart, inside the
2-second minimum interval) BOTH reach the transport, because the wrapper
builds a fresh notifier with an empty `last_alert_time` table on every call;
the final conjunct shows that the notifier machinery itself would have
suppressed the second call had the table from the first call been kept. -/
theorem C1_sync_wrapper_defeats_rate_limit :
    ((101 : ℚ) - 100 < MIN_DETECTION_INTERVAL)
    ∧ (send_detection_sync 100 "INTRUDER" none "alice" envAllOk).msgs
        = [Msg.text TELEGRAM_USER_ID]
    ∧ (send_detection_sync 101 "INTRUDER" none "alice" envAllOk).msgs
        = [Msg.text TELEGRAM_USER_ID]
    ∧ (send_detection_alert (send_detection_sync 100 "INTRUDER" none "alice" envAllOk).table
        101 "INTRUDER" none "alice" envAllOk).suppressed = true := by
  have hc100 : check_rate_limit [] 100 "alice" = true := by
    norm_num [check_rate_limit, dictGet, MIN_DETECTION_INTERVAL]
  have hc101 : check_rate_limit [] 101 "alice" = true := by
    norm_num [check_rate_limit, dictGet, MIN_DETECTION_INTERVAL]
  have hsecond : check_rate_limit [("alice", 100)] 101 "alice" = false := by
    norm_num [check_rate_limit, dictGet, MIN_DETECTION_INTERVAL]
  refine ⟨by norm_num [MIN_DETECTION_INTERVAL], ?_, ?_, ?_⟩
  · simp [send_detection_sync, send_detection_alert, hc100, pathTruthy, trySendText, envAllOk]
  · simp [send_detection_sync, send_detection_alert, hc101, pathTruthy, trySendText, envAllOk]
  · have hfirst : (send_detection_sync 100 "INTRUDER" none "alice" envAllOk).table
        = [("alice", 100)] := by
      simp [send_detection_sync, send_detection_alert, hc100, pathTruthy, trySendText,
        envAllOk, update_rate_limit, dictSet]
    rw [hfirst]
    unfold send_detection_alert
    rw [hsecond]
    simp

/-- C3 counterexample: a text-only dispatch for alice at time 100 passes the
rate-limit check, the transport send raises, and the last-alert-time entry is
NOT set to 100 (it keeps its prior value 0) — contradicting the claim that
the timestamp is updated regardless of transport failure. -/
theorem C3_counterexample :
    check_rate_limit [("alice", 0)] 100 "alice" = true ∧
    (send_detection_alert [("alice", 0)] 100 "INTRUDER" none "alice" envTextFail).suppressed
      = false ∧
    ¬ (dictGet (send_detection_alert [("alice", 0)] 100 "INTRUDER" none "alice"
        envTextFail).table "alice" = 100) := by
  have h : check_rate_limit [("alice", 0)] 100 "alice" = true := by
    norm_num [check_rate_limit, dictGet, MIN_DETECTION_INTERVAL]
  have hres : send_detection_alert [("alice", 0)] 100 "INTRUDER" none "alice" envTextFail
      = { table := [("alice", 0)], suppressed := false, msgs := [] } := by
    unfold send_detection_alert
    rw [h]
    simp [pathTruthy, trySendText, envTextFail]
  refine ⟨h, by rw [hres], ?_⟩
  rw [hres]
  norm_num [dictGet]

/-- C3 amended: for a dispatch attempt that passes the rate-limit check, the
last-alert-time entry is set to `now` exactly when the attempt does not raise
out to the outer exception handler: always in the image branch (the photo
helper swallows every transport failure internally), and in the text-only
branch only when `send_message` succeeds — a transport error there skips the
update and does not consume the rate-limit window. -/
theorem C3_update_iff_no_escape (table : List (String × ℚ)) (now : ℚ)
    (person_type : String) (image_path : Option String) (person_name : String)
    (env : Env) (h : check_rate_limit table now person_name = true) :
    (send_detection_alert table now person_type image_path person_name env).table
      = (if (pathTruthy image_path && SEND_IMAGE_WITH_ALERT) || env.sendTextOk
         then update_rate_limit table now person_name
         else table) := by
  unfold send_detection_alert
  rw [h]
  cases hb : pathTruthy image_path && SEND_IMAGE_WITH_ALERT
  · simp only [hb, Bool.false_eq_true, if_false, Bool.false_or, Bool.not_true]
    cases ht : env.sendTextOk <;> simp [trySendText, ht]
  · simp only [hb, if_true, Bool.true_or, Bool.not_true]
    obtain ⟨m1, hm1⟩ := send_photo_with_caption_ok env TELEGRAM_USER_ID
    rw [hm1, channelEnabled_eq_false]
    simp

/-- Witness for C3 amended: a concrete text-only dispatch where the transport
fails; the table stays unchanged, matching the right-hand side. -/
theorem C3_update_iff_no_escape_witness :
    check_rate_limit [("alice", 0)] 100 "alice" = true ∧
    (send_detection_alert [("alice", 0)] 100 "INTRUDER" none "alice" envTextFail).table
      = [("alice", 0)] := by
  have h : check_rate_limit [("alice", 0)] 100 "alice" = true := by
    norm_num [check_rate_limit, dictGet, MIN_DETECTION_INTERVAL]
  have h2 := C3_update_iff_no_escape [("alice", 0)] 100 "INTRUDER" none "alice" envTextFail h
  refine ⟨h, ?_⟩
  rw [h2]
  simp [pathTruthy, envTextFail]

/-- C4 counterexample: with image attachment enabled and the image file
missing at dispatch time, the photo helper sends NOTHING to the destination —
in particular no text-only fallback of the caption is attempted, contrary to
the claim. -/
theorem C4_counterexample :
    send_photo_with_caption envNoFile TELEGRAM_USER_ID = Except.ok [] ∧
    ¬ (send_photo_with_caption envNoFile TELEGRAM_USER_ID
        = Except.ok [Msg.text TELEGRAM_USER_ID]) := by
  refine ⟨rfl, ?_⟩
  intro hcontra
  rw [show send_photo_with_caption envNoFile TELEGRAM_USER_ID = Except.ok [] from rfl]
    at hcontra
  simp at hcontra

/-- C4 amended: the photo helper never lets an exception surface to the
caller; when the image file is missing it logs a warning and sends nothing
(no fallback); when the file exists and `send_photo` raises, a text-only
fallback is attempted and a failure of that fallback is swallowed; when the
file exists and `send_photo` succeeds, the photo is sent. -/
theorem C4_photo_fallback (env : Env) (chat : String) :
    (∃ ms, send_photo_with_caption env chat = Except.ok ms)
    ∧ (env.photoExists = false → send_photo_with_caption env chat = Except.ok [])
    ∧ (env.photoExists = true → env.sendPhotoOk = false →
        send_photo_with_caption env chat
          = Except.ok (if env.sendTextOk then [Msg.text chat] else []))
    ∧ (env.photoExists = true → env.sendPhotoOk = true →
        send_photo_with_caption env chat = Except.ok [Msg.photo chat]) := by
  rcases env with ⟨pe, po, tx⟩
  cases pe <;> cases po <;> cases tx <;>
    refine ⟨⟨_, rfl⟩, ?_, ?_, ?_⟩ <;>
      simp [send_photo_with_caption, trySendPhoto, trySendText]

/-- Witness for C4 amended at a concrete input: file exists, the photo send
raises, the text fallback succeeds, so exactly the fallback text is sent. -/
theorem C4_photo_fallback_witness :
    send_photo_with_caption { photoExists := true, sendPhotoOk := false, sendTextOk := true }
      "1042611352" = Except.ok [Msg.text "1042611352"] := by
  have h := (C4_photo_fallback
    { photoExists := true, sendPhotoOk := false, sendTextOk := true } "1042611352").2.2.1
    rfl rfl
  simpa using h

/-! ## Face recognition (face_recognition.py, FaceRecognizer)

Embeddings are rational vectors. numpy computes the Euclidean distance
`np.linalg.norm(detected - known)`; since every Euclidean distance is
nonnegative and squaring is strictly monotone on nonnegatives, the loop
comparisons `distance < min_distance` and the final check
`min_distance < tolerance` are modelled exactly by the corresponding
comparisons of SQUARED distances, with `dist < tol` rendered as
`0 ≤ tol ∧ distSq < tol * tol` (false for nonpositive tolerances, as in the
source where the distance is nonnegative). Embeddings share one fixed
dimension in the source (128-float vectors), so componentwise zip is exact. -/

/-- Squared Euclidean distance between two embedding vectors. -/
def distSq (a b : List ℚ) : ℚ :=
  ((a.zip b).map (fun p => (p.1 - p.2) ^ 2)).sum

/-- State of a constructed `FaceRecognizer`: whether the face_recognition
library import succeeded (`self.face_recognition` non-None) and the known
faces loaded from disk (`self.known_faces`, insertion-ordered). -/
structure Recognizer where
  libraryLoaded : Bool
  knownFaces : List (String × List ℚ)
deriving DecidableEq, Repr

/-- Oracle for the vision calls made on one crop: whether `face_locations`
found any face, and the list returned by `face_encodings`. -/
structure CropInfo where
  faceFound : Bool
  encodings : List (List ℚ)
deriving DecidableEq, Repr

/-- One iteration of the loop at face_recognition.py lines 114-120: replace
the running (min_distance, matched_name) when the new distance is strictly
smaller; the `none` accumulator is the initial infinite min_distance, which
any distance beats. -/
def bestStep (detected : List ℚ) (acc : Option ℚ × String) (p : String × List ℚ) :
    Option ℚ × String :=
  match acc.1 with
  | none => (some (distSq detected p.2), p.1)
  | some m =>
    if distSq detected p.2 < m then (some (distSq detected p.2), p.1) else acc

/-- face_recognition.py lines 69-136, `FaceRecognizer.recognize_face`.
Returns "UNKNOWN" when the library is unavailable or no known faces are
loaded (line 83), when no face is located (line 95), or when no encoding is
produced (line 104); otherwise scans the known faces for the minimum distance
to the first detected encoding and returns the matched name iff the minimum
is strictly below the tolerance (line 123). -/
def recognizeFace (r : Recognizer) (crop : CropInfo) (tol : ℚ) : String :=
  if !r.libraryLoaded || r.knownFaces.isEmpty then "UNKNOWN"
  else if !crop.faceFound then "UNKNOWN"
  else
    match crop.encodings.head? with
    | none => "UNKNOWN"
    | some detected =>
      let best := r.knownFaces.foldl (bestStep detected) ((none : Option ℚ), "UNKNOWN")
      match best.1 with
      | none => "UNKNOWN"
      | some m => if 0 ≤ tol ∧ m < tol * tol then best.2 else "UNKNOWN"

/-! Specification-side definitions for C9, independent of the loop: the
minimum of a list of distances and the first entry attaining it. -/

/-- Minimum of a list of rationals, `none` on the empty list. -/
def listMin : List ℚ → Option ℚ
  | [] => none
  | x :: xs =>
    match listMin xs with
    | none => some x
    | some m => some (min x m)

/-- The distances from a detected encoding to each known face, in order. -/
def distList (detected : List ℚ) (faces : List (String × List ℚ)) : List ℚ :=
  faces.map (fun p => distSq detected p.2)

theorem distList_cons (detected : List ℚ) (p : String × List ℚ)
    (rest : List (String × List ℚ)) :
    distList detected (p :: rest) = distSq detected p.2 :: distList detected rest := rfl

theorem listMin_cons (x : ℚ) (xs : List ℚ) :
    listMin (x :: xs)
      = some (match listMin xs with | none => x | some m => min x m) := by
  cases h : listMin xs <;> simp [listMin, h]

theorem listMin_mem (l : List ℚ) (m : ℚ) (h : listMin l = some m) : m ∈ l := by
  induction l with
  | nil => simp [listMin] at h
  | cons x xs ih =>
    rw [listMin_cons] at h
    cases hx : listMin xs with
    | none => rw [hx] at h; simp at h; simp [h]
    | some mr =>
      rw [hx] at h
      simp at h
      rcases min_choice x mr with hm | hm
      · rw [hm] at h; simp [h]
      · rw [hm] at h; subst h; exact List.mem_cons_of_mem _ (ih hx)

/-- Helper: `find?` on a cons whose head satisfies the predicate. -/
theorem find_cons_pos {α : Type} (pred : α → Bool) (a : α) (l : List α)
    (h : pred a = true) : (a :: l).find? pred = some a := by
  simp [List.find?_cons, h]

/-- Helper: `find?` on a cons whose head fails the predicate. -/
theorem find_cons_neg {α : Type} (pred : α → Bool) (a : α) (l : List α)
    (h : pred a = false) : (a :: l).find? pred = l.find? pred := by
  simp [List.find?_cons, h]

/-- Helper: a value attained in the distance list is found by `find?`. -/
theorem find_dist_exists (detected : List ℚ) (faces : List (String × List ℚ)) (m : ℚ)
    (hm : m ∈ distList detected faces) :
    ∃ q, faces.find? (fun p => distSq detected p.2 == m) = some q := by
  induction faces with
  | nil => simp [distList] at hm
  | cons p rest ih =>
    by_cases hd : distSq detected p.2 = m
    · exact ⟨p, find_cons_pos (fun p => distSq detected p.2 == m) p rest (by simp [hd])⟩
    · rw [distList_cons] at hm
      rcases List.mem_cons.mp hm with h | h
      · exact absurd h.symm hd
      · obtain ⟨q, hq⟩ := ih h
        refine ⟨q, ?_⟩
        rw [find_cons_neg (fun p => distSq detected p.2 == m) p rest (by simp [hd])]
        exact hq

/-- Key loop invariant: folding `bestStep` from an already-populated
accumulator computes the overall minimum distance and the label of the FIRST
entry attaining it, with the accumulator winning ties. -/
theorem foldl_bestStep_spec (detected : List ℚ) (faces : List (String × List ℚ))
    (m0 : ℚ) (nm0 : String) :
    faces.foldl (bestStep detected) (some m0, nm0)
      = match listMin (distList detected faces) with
        | none => (some m0, nm0)
        | some m =>
          if m < m0 then
            (some m,
              ((faces.find? (fun p => distSq detected p.2 == m)).map Prod.fst).getD nm0)
          else (some m0, nm0) := by
  induction faces generalizing m0 nm0 with
  | nil => simp [distList, listMin]
  | cons p rest ih =>
    rw [distList_cons, listMin_cons]
    have hstep : bestStep detected (some m0, nm0) p
        = if distSq detected p.2 < m0 then (some (distSq detected p.2), p.1)
          else (some m0, nm0) := rfl
    rw [List.foldl_cons, hstep]
    by_cases hd : distSq detected p.2 < m0
    · rw [if_pos hd]
      rw [ih (distSq detected p.2) p.1]
      cases hrest : listMin (distList detected rest) with
      | none =>
        simp only
        rw [if_pos hd,
          find_cons_pos (fun q => distSq detected q.2 == distSq detected p.2) p rest
            (by simp)]
        simp
      | some mr =>
        simp only
        by_cases hmr : mr < distSq detected p.2
        · rw [if_pos hmr]
          have hmin : min (distSq detected p.2) mr = mr := min_eq_right (le_of_lt hmr)
          rw [hmin, if_pos (lt_trans hmr hd)]
          have hne : ((fun q => distSq detected q.2 == mr) p) = false := by
            simp
            exact ne_of_gt hmr
          rw [find_cons_neg (fun q => distSq detected q.2 == mr) p rest hne]
          obtain ⟨q, hq⟩ := find_dist_exists detected rest mr (listMin_mem _ _ hrest)
          rw [hq]
          simp
        · rw [if_neg hmr]
          have hmin : min (distSq detected p.2) mr = distSq detected p.2 :=
            min_eq_left (le_of_not_lt hmr)
          rw [hmin, if_pos hd,
            find_cons_pos (fun q => distSq detected q.2 == distSq detected p.2) p rest
              (by simp)]
          simp
    · rw [if_neg hd]
      rw [ih m0 nm0]
      cases hrest : listMin (distList detected rest) with
      | none =>
        simp only
        rw [if_neg hd]
      | some mr =>
        simp only
        by_cases hmr : mr < m0
        · rw [if_pos hmr]
          have hmlt : mr < distSq detected p.2 := lt_of_lt_of_le hmr (le_of_not_lt hd)
          have hmin : min (distSq detected p.2) mr = mr := min_eq_right (le_of_lt hmlt)
          rw [hmin, if_pos hmr]
          have hne : ((fun q => distSq detected q.2 == mr) p) = false := by
            simp
            exact ne_of_gt hmlt
          rw [find_cons_neg (fun q => distSq detected q.2 == mr) p rest hne]
        · rw [if_neg hmr]
          have hge : m0 ≤ min (distSq detected p.2) mr :=
            le_min (le_of_not_lt hd) (le_of_not_lt hmr)
          rw [if_neg (not_lt.mpr hge)]

/-- Derived form starting from the empty accumulator (the initial pair of an
infinite min_distance and "UNKNOWN" in the source). -/
theorem foldl_best_full (detected : List ℚ) (p : String × List ℚ)
    (rest : List (String × List ℚ)) :
    (p :: rest).foldl (bestStep detected) ((none : Option ℚ), "UNKNOWN")
      = match listMin (distList detected (p :: rest)) with
        | none => ((none : Option ℚ), "UNKNOWN")
        | some m =>
          (some m,
            (((p :: rest).find? (fun q => distSq detected q.2 == m)).map Prod.fst).getD
              "UNKNOWN") := by
  have hfirst : bestStep detected ((none : Option ℚ), "UNKNOWN") p
      = (some (distSq detected p.2), p.1) := rfl
  rw [List.foldl_cons, hfirst, foldl_bestStep_spec]
  rw [distList_cons, listMin_cons]
  cases hrest : listMin (distList detected rest) with
  | none =>
    simp only
    rw [find_cons_pos (fun q => distSq detected q.2 == distSq detected p.2) p rest
      (by simp)]
    simp
  | some mr =>
    simp only
    by_cases hmr : mr < distSq detected p.2
    · rw [if_pos hmr]
      have hmin : min (distSq detected p.2) mr = mr := min_eq_right (le_of_lt hmr)
      rw [hmin]
      have hne : ((fun q => distSq detected q.2 == mr) p) = false := by
        simp
        exact ne_of_gt hmr
      rw [find_cons_neg (fun q => distSq detected q.2 == mr) p rest hne]
      obtain ⟨q, hq⟩ := find_dist_exists detected rest mr (listMin_mem _ _ hrest)
      rw [hq]
      simp
    · rw [if_neg hmr]
      have hmin : min (distSq detected p.2) mr = distSq detected p.2 :=
        min_eq_left (le_of_not_lt hmr)
      rw [hmin,
        find_cons_pos (fun q => distSq detected q.2 == distSq detected p.2) p rest
          (by simp)]
      simp

/-- C9: with the library and at least one known embedding loaded, and a face
found and encoded, `recognize_face` computes the distance from the first
detected encoding to every known embedding, selects the minimum, and returns
the label of the first entry attaining it iff the minimum is strictly below
the tolerance, returning "UNKNOWN" otherwise; with no face found or an empty
encoding list it returns "UNKNOWN" instead of failing. Distances are squared
throughout (an exact reparametrization, see `distSq`). -/
theorem C9_recognize_characterization (r : Recognizer) (crop : CropInfo) (tol : ℚ)
    (hlib : r.libraryLoaded = true) (hkf : r.knownFaces ≠ []) :
    (crop.faceFound = false → recognizeFace r crop tol = "UNKNOWN")
    ∧ (crop.encodings = [] → recognizeFace r crop tol = "UNKNOWN")
    ∧ (∀ detected, crop.faceFound = true → crop.encodings.head? = some detected →
        ∀ m, listMin (distList detected r.knownFaces) = some m →
          ((0 ≤ tol ∧ m < tol * tol) →
            ∃ q, r.knownFaces.find? (fun p => distSq detected p.2 == m) = some q
              ∧ recognizeFace r crop tol = q.1 ∧ distSq detected q.2 = m)
          ∧ (¬ (0 ≤ tol ∧ m < tol * tol) → recognizeFace r crop tol = "UNKNOWN")) := by
  have hkfe : r.knownFaces.isEmpty = false := by
    cases hk : r.knownFaces with
    | nil => exact absurd hk hkf
    | cons p rest => simp [hk]
  refine ⟨?_, ?_, ?_⟩
  · intro hff
    unfold recognizeFace
    rw [hlib, hkfe, hff]
    simp
  · intro henc
    unfold recognizeFace
    rw [hlib, hkfe, henc]
    cases hff : crop.faceFound <;> simp
  · intro detected hff henc m hmin
    obtain ⟨p, rest, hk⟩ : ∃ p rest, r.knownFaces = p :: rest := by
      cases hkc : r.knownFaces with
      | nil => exact absurd hkc hkf
      | cons p rest => exact ⟨p, rest, rfl⟩
    rw [hk] at hmin
    have hbest : (p :: rest).foldl (bestStep detected) ((none : Option ℚ), "UNKNOWN")
        = (some m,
            (((p :: rest).find? (fun q => distSq detected q.2 == m)).map Prod.fst).getD
              "UNKNOWN") := by
      rw [foldl_best_full, hmin]
    have hmem : m ∈ distList detected (p :: rest) := listMin_mem _ _ hmin
    obtain ⟨q, hq⟩ := find_dist_exists detected (p :: rest) m hmem
    have hqd : distSq detected q.2 = m := by
      have := List.find?_some hq
      simpa using this
    have hrec : recognizeFace r crop tol
        = if 0 ≤ tol ∧ m < tol * tol then q.1 else "UNKNOWN" := by
      unfold recognizeFace
      rw [hlib, hkfe, hff, henc]
      simp only [Bool.not_true, Bool.false_or, if_false, Bool.not_false]
      rw [hk, hbest, hq]
      simp
    constructor
    · intro htol
      refine ⟨q, by rw [hk]; exact hq, ?_, hqd⟩
      rw [hrec, if_pos htol]
    · intro htol
      rw [hrec, if_neg htol]

/-- Witness for C9 at a concrete recognizer: two known faces, the detected
encoding is nearest to the second one at squared distance 0, inside the 0.6
tolerance, so "bob" is returned. -/
theorem C9_recognize_characterization_witness :
    recognizeFace
      { libraryLoaded := true, knownFaces := [("alice", [0, 0]), ("bob", [1, 0])] }
      { faceFound := true, encodings := [[1, 0]] } FACE_RECOGNITION_THRESHOLD = "bob" := by
  have h := (C9_recognize_characterization
    { libraryLoaded := true, knownFaces := [("alice", [0, 0]), ("bob", [1, 0])] }
    { faceFound := true, encodings := [[1, 0]] } FACE_RECOGNITION_THRESHOLD
    rfl (by simp)).2.2 [1, 0] rfl rfl 0
  have hmin : listMin (distList [1, 0] [("alice", [0, 0]), ("bob", [1, 0])]) = some 0 := by
    norm_num [listMin, distList, distSq, List.zip]
  have htol : (0 : ℚ) ≤ FACE_RECOGNITION_THRESHOLD ∧
      (0 : ℚ) < FACE_RECOGNITION_THRESHOLD * FACE_RECOGNITION_THRESHOLD := by
    norm_num [FACE_RECOGNITION_THRESHOLD]
  obtain ⟨q, hq, hrec, hqd⟩ := (h hmin).1 htol
  have hqv : q = ("bob", [(1 : ℚ), 0]) := by
    have : [("alice", [(0 : ℚ), 0]), ("bob", [1, 0])].find?
        (fun p => distSq [1, 0] p.2 == 0) = some ("bob", [(1 : ℚ), 0]) := by
      rw [List.find?_cons_of_neg _ (by norm_num [distSq, List.zip]),
        List.find?_cons_of_pos _ (by norm_num [distSq, List.zip])]
    rw [this] at hq
    exact (Option.some_injective _ hq).symm
  rw [hrec, hqv]

/-! ## Frame processing (main.py, SmartDoorCamera._process_frame) -/

/-- main.py lines 222-228: `person_name` defaults to "Unknown" and is
replaced by `recognize_face` only when a recognizer object is loaded. -/
def person_name_of : Option Recognizer → CropInfo → ℚ → String
  | none, _, _ => "Unknown"
  | some r, crop, tol => recognizeFace r crop tol

/-- main.py line 231: `person_type = "ALLOWED" if person_name != "Unknown"
else "INTRUDER"`. -/
def person_type_of (person_name : String) : String :=
  if person_name ≠ "Unknown" then "ALLOWED" else "INTRUDER"

/-- C2: evaluation of the code at the failing scenario. When the classifier
is unavailable (library import failed or no embeddings loaded) but a
recognizer object exists, `recognize_face` does return the sentinel
"UNKNOWN" for every crop and tolerance — yet `_process_frame` then logs
`person_type = "ALLOWED"`, because line 231 of main.py compares against the
differently-cased "Unknown". The claim requires "INTRUDER". -/
theorem C2_unavailable_classifier_marks_allowed (r : Recognizer) (crop : CropInfo)
    (tol : ℚ) (h : r.libraryLoaded = false ∨ r.knownFaces = []) :
    recognizeFace r crop tol = "UNKNOWN"
    ∧ person_type_of (person_name_of (some r) crop tol) = "ALLOWED" := by
  have h1 : recognizeFace r crop tol = "UNKNOWN" := by
    unfold recognizeFace
    rcases h with h | h <;> simp [h]
  refine ⟨h1, ?_⟩
  rw [person_name_of, h1]
  rfl

/-- Witness for C2: a recognizer whose library loaded but with zero known
embeddings, on an arbitrary concrete crop at the configured tolerance. -/
theorem C2_unavailable_classifier_marks_allowed_witness :
    recognizeFace { libraryLoaded := true, knownFaces := [] }
      { faceFound := true, encodings := [[0]] } FACE_RECOGNITION_THRESHOLD = "UNKNOWN"
    ∧ person_type_of (person_name_of (some { libraryLoaded := true, knownFaces := [] })
        { faceFound := true, encodings := [[0]] } FACE_RECOGNITION_THRESHOLD)
      = "ALLOWED" :=
  C2_unavailable_classifier_marks_allowed _ _ _ (Or.inr rfl)

/-- C5 counterexample: a loaded recognizer whose known-faces store contains a
file literally named "Unknown"; a matching crop makes `recognize_face` return
"Unknown", so `_process_frame` computes INTRUDER even though a recognizer
object IS loaded — refuting the "only when no recognizer is loaded" part. -/
theorem C5_counterexample :
    (some { libraryLoaded := true,
            knownFaces := [("Unknown", [0])] } : Option Recognizer).isSome = true
    ∧ person_type_of (person_name_of
        (some { libraryLoaded := true, knownFaces := [("Unknown", [0])] })
        { faceFound := true, encodings := [[0]] } FACE_RECOGNITION_THRESHOLD)
      = "INTRUDER" := by
  refine ⟨rfl, ?_⟩
  have hrec : recognizeFace { libraryLoaded := true, knownFaces := [("Unknown", [0])] }
      { faceFound := true, encodings := [[0]] } FACE_RECOGNITION_THRESHOLD
      = "Unknown" := by
    unfold recognizeFace
    norm_num [bestStep, distSq, List.zip, FACE_RECOGNITION_THRESHOLD]
  rw [person_name_of, hrec]
  rfl

/-- C5 amended: whenever the loaded recognizer returns its sentinel "UNKNOWN"
(library missing, no embeddings, no face, encoding failure, or minimum
distance at or above tolerance) the pipeline computes `person_type =
"ALLOWED"`; and `person_type = "INTRUDER"` arises exactly when no recognizer
object is loaded, or when the recognizer returns the literal label "Unknown"
(possible only via a known-face file whose stem is "Unknown"). -/
theorem C5_sentinel_case_mismatch (ropt : Option Recognizer) (crop : CropInfo) (tol : ℚ) :
    (∀ r, ropt = some r → recognizeFace r crop tol = "UNKNOWN" →
        person_type_of (person_name_of ropt crop tol) = "ALLOWED")
    ∧ (person_type_of (person_name_of ropt crop tol) = "INTRUDER"
        ↔ (ropt = none ∨ ∃ r, ropt = some r ∧ recognizeFace r crop tol = "Unknown")) := by
  rcases ropt with _ | r
  · refine ⟨fun r h => absurd h (by simp), ?_⟩
    simp [person_name_of, person_type_of]
  · constructor
    · intro r2 h hr
      have h2 : r = r2 := by injection h
      subst h2
      show person_type_of (recognizeFace r crop tol) = "ALLOWED"
      rw [hr]
      rfl
    · rw [person_name_of]
      by_cases hu : recognizeFace r crop tol = "Unknown"
      · rw [person_type_of, hu]
        simp [hu]
      · rw [person_type_of, if_pos hu]
        constructor
        · intro hcontra
          exact absurd hcontra (by simp)
        · intro hcontra
          rcases hcontra with hcontra | ⟨r2, hr2, hrec⟩
          · exact absurd hcontra (by simp)
          · have : r2 = r := by injection hr2 with h2; exact h2.symm
            rw [this] at hrec
            exact absurd hrec hu

/-- Witness for C5 amended: a loaded recognizer with no embeddings returns
the sentinel, and the pipeline marks the detection ALLOWED. -/
theorem C5_sentinel_case_mismatch_witness :
    person_type_of (person_name_of (some { libraryLoaded := true, knownFaces := [] })
      { faceFound := true, encodings := [[0]] } FACE_RECOGNITION_THRESHOLD)
      = "ALLOWED" := by
  have h := (C5_sentinel_case_mismatch
    (some { libraryLoaded := true, knownFaces := [] })
    { faceFound := true, encodings := [[0]] } FACE_RECOGNITION_THRESHOLD).1
    { libraryLoaded := true, knownFaces := [] } rfl
  exact h (by unfold recognizeFace; simp)

/-! ## Detection log (utils.py, save_detection_csv)

The CSV file is a sequence of written rows; `none` models a file that does
not exist yet (`config.LOG_FILE.exists()` false). A call appends one data row
(opening with mode a creates the file), writing the header row first iff the
file did not exist before the call. The confidence is formatted by the source
to three decimals; the row stores the value itself. -/

/-- One row written to detection_log.csv: the header, or a data row. -/
inductive CsvLine
  | header
  | data (timestamp person_type person_name : String) (confidence : ℚ) (camera : String)
deriving DecidableEq, Repr

/-- Arguments of one `save_detection_csv` call (utils.py lines 68-69); the
camera argument defaults to "front_door" at the call site in main.py. -/
structure LogArgs where
  timestamp : String
  person_type : String
  person_name : String
  confidence : ℚ
  camera : String
deriving DecidableEq, Repr

/-- The data row written for one call (the log_entry dict in order). -/
def toDataLine (a : LogArgs) : CsvLine :=
  CsvLine.data a.timestamp a.person_type a.person_name a.confidence a.camera

/-- utils.py lines 68-104, `save_detection_csv`: `file_exists` is checked
before opening; append mode creates the file when absent; `writeheader` runs
iff the file did not exist; then the data row is appended. -/
def save_detection_csv (file : Option (List CsvLine)) (a : LogArgs) :
    Option (List CsvLine) :=
  match file with
  | none => some [CsvLine.header, toDataLine a]
  | some ls => some (ls ++ [toDataLine a])

/-- N successive `save_detection_csv` calls, in call order. -/
def appendLogRuns (file : Option (List CsvLine)) (rows : List LogArgs) :
    Option (List CsvLine) :=
  rows.foldl save_detection_csv file

/-- Helper: appending to an existing file never writes a header. -/
theorem appendLogRuns_some (rows : List LogArgs) :
    ∀ ls, appendLogRuns (some ls) rows = some (ls ++ rows.map toDataLine) := by
  induction rows with
  | nil => intro ls; simp [appendLogRuns]
  | cons a rest ih =>
    intro ls
    have hstep : appendLogRuns (some ls) (a :: rest)
        = appendLogRuns (some (ls ++ [toDataLine a])) rest := rfl
    rw [hstep, ih]
    simp

/-- C7: starting from a non-existent log file, N calls (N at least 1) produce
exactly one header row followed by the N data rows in call order; none of the
data rows is a header row; and when the file already exists, the same calls
append only data rows (the header is written iff the file did not exist). -/
theorem C7_append_log (rows : List LogArgs) (h : rows ≠ []) :
    appendLogRuns none rows = some (CsvLine.header :: rows.map toDataLine)
    ∧ (∀ ls, appendLogRuns (some ls) rows = some (ls ++ rows.map toDataLine))
    ∧ CsvLine.header ∉ rows.map toDataLine := by
  refine ⟨?_, appendLogRuns_some rows, ?_⟩
  · cases rows with
    | nil => exact absurd rfl h
    | cons a rest =>
      have hstep : appendLogRuns none (a :: rest)
          = appendLogRuns (some [CsvLine.header, toDataLine a]) rest := rfl
      rw [hstep, appendLogRuns_some rest]
      simp
  · intro hcontra
    obtain ⟨a, _, ha⟩ := List.mem_map.mp hcontra
    exact CsvLine.noConfusion ha

/-- Witness for C7 with a single concrete call on a fresh file. -/
theorem C7_append_log_witness :
    appendLogRuns none
        [(⟨"2025-01-01T12:00:00", "INTRUDER", "Unknown", 1/2, "front_door"⟩ : LogArgs)]
      = some [CsvLine.header,
          CsvLine.data "2025-01-01T12:00:00" "INTRUDER" "Unknown" (1/2) "front_door"] := by
  have h := (C7_append_log
    [(⟨"2025-01-01T12:00:00", "INTRUDER", "Unknown", 1/2, "front_door"⟩ : LogArgs)]
    (by simp)).1
  simpa [toDataLine] using h

/-! ## Image retention sweep (utils.py, cleanup_old_images)

The detections directory is a list of (file name, modification time) pairs;
`glob("detection_*.jpg")` keeps exactly the names with that prefix and that
suffix (the wildcard may match the empty string), and matched files strictly
older than the cutoff `now - days` (in seconds: days * 86400) are unlinked. -/

/-- Whether a file name matches the glob pattern detection_*.jpg: the name
begins with the literal "detection_" and ends with the literal ".jpg" (the
wildcard may match the empty string). The suffix test is the prefix test on
the reversed character lists. -/
def isDetectionImage (nm : String) : Bool :=
  (List.isPrefixOf "detection_".data nm.data)
    && (List.isPrefixOf ".jpg".data.reverse nm.data.reverse)

/-- utils.py lines 41-65, `cleanup_old_images`: no-op when the
CLEANUP_OLD_IMAGES flag is off; otherwise deletes each glob-matched image
whose mtime is strictly below the cutoff timestamp, leaving every other file
in place. -/
def cleanup_old_images (files : List (String × ℚ)) (now : ℚ) (days : ℕ) :
    List (String × ℚ) :=
  if !CLEANUP_OLD_IMAGES then files
  else files.filter
    (fun f => !(isDetectionImage f.1 && decide (f.2 < now - (days : ℚ) * 86400)))

/-- C8: with the repository configuration, the sweep deletes exactly the
stored detection images strictly older than `now - days` and touches nothing
else; in particular the CSV log detection_log.csv and camera.log never match
the image glob, while a detection image name does. -/
theorem C8_purge_exactly_old_images (files : List (String × ℚ)) (now : ℚ) (days : ℕ) :
    (∀ f, f ∈ cleanup_old_images files now days
        ↔ f ∈ files ∧ ¬ (isDetectionImage f.1 = true ∧ f.2 < now - (days : ℚ) * 86400))
    ∧ isDetectionImage "detection_log.csv" = false
    ∧ isDetectionImage "camera.log" = false
    ∧ isDetectionImage "detection_alice_20250101_120000_000.jpg" = true := by
  refine ⟨?_, by decide, by decide, by decide⟩
  intro f
  unfold cleanup_old_images
  rw [show (!CLEANUP_OLD_IMAGES) = false from rfl, if_neg (by simp)]
  rw [List.mem_filter]
  constructor
  · rintro ⟨hmem, hp⟩
    refine ⟨hmem, ?_⟩
    rintro ⟨himg, hlt⟩
    rw [himg] at hp
    simp only [Bool.true_and, Bool.not_eq_true', decide_eq_false_iff_not] at hp
    exact hp hlt
  · rintro ⟨hmem, hp⟩
    refine ⟨hmem, ?_⟩
    cases himg : isDetectionImage f.1 with
    | false => simp [himg]
    | true =>
      simp only [himg, Bool.true_and, Bool.not_eq_true', decide_eq_false_iff_not]
      exact fun hlt => hp ⟨himg, hlt⟩

/-! ## Pipeline controller (main.py, run and main)

The device-open outcome is a boolean oracle; `framesAvail` stands for the
number of frames the loop would read were the device open. The open-failure
path (main.py lines 110-114) logs, attempts an error notice, and returns
from `run` before any frame is read; `main` (lines 314-337) catches every
exception, runs cleanup in its finally block, and falls off the end, so the
interpreter exits with status 0 on this path. -/

/-- Observable outcome of one `SmartDoorCamera.run()` call. -/
structure RunOutcome where
  framesRead : ℕ
  errorNoticeAttempted : Bool
  enteredLoop : Bool
deriving DecidableEq, Repr

/-- main.py lines 97-169, `run`: on open failure, send the error notice and
return without reading frames; otherwise the capture loop runs. -/
def runModel (openOk : Bool) (framesAvail : ℕ) : RunOutcome :=
  if !openOk then
    { framesRead := 0, errorNoticeAttempted := true, enteredLoop := false }
  else
    { framesRead := framesAvail, errorNoticeAttempted := false, enteredLoop := true }

/-- The result `run` hands back to `main`: it returns normally on the
open-failure path (an early return, not an exception). -/
def runReturns (openOk : Bool) (framesAvail : ℕ) : Except String RunOutcome :=
  Except.ok (runModel openOk framesAvail)

/-- main.py lines 314-337, `main`: a raised exception would be caught and
handled, and `main` returns None either way, so the Python process exit
status is 0 on every modelled path (no sys.exit with a non-zero code exists
outside the signal handler, which uses 0). -/
def mainExitCode (openOk : Bool) (framesAvail : ℕ) : ℕ :=
  match runReturns openOk framesAvail with
  | Except.ok _ => 0
  | Except.error _ => 0

/-- C10 counterexample: when the device fails to open, no frames are read
and the error notice is attempted, but the process exit status is 0 — the
claim that it exits non-zero is false at this input. -/
theorem C10_counterexample :
    (runModel false 0).framesRead = 0
    ∧ (runModel false 0).errorNoticeAttempted = true
    ∧ ¬ (mainExitCode false 0 ≠ 0) := by
  refine ⟨rfl, rfl, ?_⟩
  intro h
  exact h rfl

/-- C10 amended: when the device fails to open, the controller goes straight
from Ready to Failed: the frame loop is never entered, no frame is read, an
error notice is attempted, and then `run` returns normally, so after cleanup
the process exits with status 0 (not non-zero). -/
theorem C10_open_fail_reads_nothing_exits_zero (framesAvail : ℕ) :
    (runModel false framesAvail).framesRead = 0
    ∧ (runModel false framesAvail).enteredLoop = false
    ∧ (runModel false framesAvail).errorNoticeAttempted = true
    ∧ mainExitCode false framesAvail = 0 :=
  ⟨rfl, rfl, rfl, rfl⟩

end SmartDoor
